import Mathlib

set_option maxRecDepth 8192

/-!
Verification development for the browser chat frontend
(frontend modules: utils, apiService, statusManager, chatModule,
resultsModule, config).

Each JavaScript function the claims touch is embedded as a computable
Lean definition translated from its source.  DOM interaction is made
explicit: element presence becomes a Bool, element content becomes plain
data carried in a state record, and one call of an async function is
embedded as an atomic transition parameterised by the outcome of its
single awaited request.
-/

namespace Chatbot

/-! ## utils.js: escapeHtml

`escapeHtml` sets `div.textContent = text` and reads back
`div.innerHTML`.  Serialising a text node (WHATWG HTML fragment
serialisation, non-attribute mode) replaces `&` with the entity
for ampersand, `<` with the entity for less-than, `>` with the entity
for greater-than, and U+00A0 with the non-breaking-space entity; every
other character - including the quote characters - is emitted
literally.  `escapeChar` is that per-character serialisation. -/

/-- Characters the text-node serialisation rewrites. -/
def isEscapedChar (c : Char) : Bool :=
  c = '&' || c = '<' || c = '>' || c = Char.ofNat 160

/-- Per-character HTML text-node serialisation. -/
def escapeChar (c : Char) : String :=
  if c = '&' then "&amp;"
  else if c = '<' then "&lt;"
  else if c = '>' then "&gt;"
  else if c = Char.ofNat 160 then "&nbsp;"
  else String.mk [c]

/-- Serialisation of a whole character list. -/
def escapeHtmlList : List Char → List Char
  | [] => []
  | c :: cs => (escapeChar c).data ++ escapeHtmlList cs

/-- `Utils.escapeHtml`: the `textContent` assignment / `innerHTML`
read-back round-trip. -/
def escapeHtml (s : String) : String :=
  String.mk (escapeHtmlList s.data)

/-! ## utils.js: formatKey

`formatKey` is `key.replace(/_/g, ' ').replace(/\b\w/g, l => l.toUpperCase())`.
A JavaScript word character is `[A-Za-z0-9_]`; the boundary `\b\w`
matches exactly the word characters whose predecessor is the start of
the string or a non-word character. -/

/-- JavaScript `\w`. -/
def isWordChar (c : Char) : Bool :=
  c.isAlpha || c.isDigit || c = '_'

/-- First `replace`: every underscore becomes a space. -/
def underscoreToSpace (c : Char) : Char :=
  if c = '_' then ' ' else c

/-- Second `replace`: uppercase each word character not preceded by a
word character.  `prev` records whether the previous character was a
word character (`false` at the start of the string). -/
def jsWordUp (prev : Bool) : List Char → List Char
  | [] => []
  | c :: cs =>
      (if isWordChar c && !prev then c.toUpper else c) :: jsWordUp (isWordChar c) cs

/-- `Utils.formatKey`. -/
def formatKey (s : String) : String :=
  String.mk (jsWordUp false (s.data.map underscoreToSpace))

/-! ## utils.js: formatNumber

`Intl.NumberFormat` with the `ms-MY` locale groups digits in threes
with `,` separators. -/

/-- Insert a `,` after every three characters of a reversed digit list
while more digits remain. -/
def groupThrees : List Char → List Char
  | a :: b :: c :: rest =>
      match rest with
      | [] => [a, b, c]
      | _ :: _ => a :: b :: c :: ',' :: groupThrees rest
  | l => l

/-- `Utils.formatNumber` on a natural number. -/
def formatNumber (n : Nat) : String :=
  String.mk (groupThrees (toString n).data.reverse).reverse

/-! ## config.js -/

/-- `Config.RETRY_ATTEMPTS`. -/
def RETRY_ATTEMPTS : Nat := 3

/-- `Config.RETRY_DELAY` (milliseconds). -/
def RETRY_DELAY : Nat := 1000

/-! ## apiService.js: checkHealth

One fetch of the health endpoint either yields a parsed JSON body or
fails (abort after the 5000ms timeout, transport error, or the
`!response.ok` throw - the catch block treats them all alike apart from
logging).  `respond n` is the outcome of the `n`-th request.  The
observable behaviour is the trace of requests and waits together with
the final outcome.  The recursion is structural on the `retries`
counter, which strictly decreases on each retry. -/

/-- Observable API-client events: one fetch attempt, or an awaited
`setTimeout` delay of the given number of milliseconds. -/
inductive HEvent where
  | request : HEvent
  | delay : Nat → HEvent
deriving DecidableEq, Repr

/-- `ApiService.checkHealth`, run against an endpoint whose `n`-th
request resolves as `respond n`.  Returns the event trace and what the
returned promise settles to. -/
def checkHealth {α : Type} (respond : Nat → Except String α) :
    Nat → Nat → List HEvent × Except String α
  | attempt, retries =>
    match respond attempt with
    | Except.ok h => ([HEvent.request], Except.ok h)
    | Except.error e =>
      match retries with
      | 0 => ([HEvent.request], Except.error e)
      | r + 1 =>
        let next := checkHealth respond (attempt + 1) r
        (HEvent.request :: HEvent.delay RETRY_DELAY :: next.1, next.2)

/-- Whether an event is a request. -/
def isRequest : HEvent → Bool
  | HEvent.request => true
  | HEvent.delay _ => false

/-- Number of fetch attempts in a trace. -/
def countRequests (tr : List HEvent) : Nat :=
  (tr.filter isRequest).length

/-- Scans a trace keeping the milliseconds waited since the previous
request (`acc`); every request after the first must be preceded by at
least `d` accumulated delay. -/
def spacedFrom (d : Nat) : Nat → List HEvent → Bool
  | _, [] => true
  | acc, HEvent.delay m :: rest => spacedFrom d (acc + m) rest
  | acc, HEvent.request :: rest => decide (d ≤ acc) && spacedFrom d 0 rest

/-- Every two consecutive requests of the trace are separated by at
least `d` milliseconds of delay (the first request needs none). -/
def spaced (d : Nat) (tr : List HEvent) : Bool :=
  spacedFrom d d tr

/-! ## apiService.js: sendQuery

The fetch of `/ask` yields a status and a parsed JSON body; `ok` is the
`Response.ok` accessor (status in the 2xx range).  The body's `error`
field is absent (`none`) or a string; `if (data.error)` tests
JavaScript truthiness, which for a string means non-empty. -/

/-- One row of a group: the backend sends a single-entry mapping from
a dynamic field name to its value plus a fixed `COUNT` field; `key` is
the first key `Object.keys` returns. -/
structure Row where
  key : String
  value : String
  count : Nat
deriving DecidableEq, Repr

/-- One group of the answer's breakdown. -/
structure Group where
  label : String
  rows : List Row
deriving DecidableEq, Repr

/-- The `answer` object of an `/ask` response. -/
structure Answer where
  total : Option Nat
  groups : Option (List Group)
deriving DecidableEq, Repr

/-- The parsed `/ask` response body: the optional application-level
`error` field, and the `plan` and `answer` payload the frontend reads
(each possibly absent, i.e. `undefined`).  A plan is its ordered list
of own enumerable key/value entries, as `Object.entries` yields it. -/
structure AskBody where
  error : Option String
  plan : Option (List (String × String))
  answer : Option Answer
deriving DecidableEq, Repr

/-- An HTTP reply from `/ask`: status code and parsed JSON body. -/
structure AskResponse where
  status : Nat
  body : AskBody
deriving DecidableEq, Repr

/-- `Response.ok`: status in the 2xx range. -/
def responseOk (r : AskResponse) : Bool :=
  200 ≤ r.status && r.status < 300

/-- JavaScript truthiness of an optional string field: present and
non-empty. -/
def truthy : Option String → Bool
  | none => false
  | some s => decide (s ≠ "")

/-- `ApiService.sendQuery`: the outcome of one call, given the reply
the fetch resolved to. -/
def sendQuery (r : AskResponse) : Except String AskBody :=
  if responseOk r = false then
    Except.error ("HTTP error! status: " ++ toString r.status)
  else if truthy r.body.error then
    Except.error (r.body.error.getD "")
  else
    Except.ok r.body

/-! ## resultsModule.js

The HTML the module assembles is embedded as the string it builds, with
the template literals' insignificant whitespace and inline HTML
comments elided.  `displayResults` either replaces the container's
content (returned as the `Except.ok` value) or throws a `TypeError`
(returned as `Except.error`): destructuring `const plan, answer of
data` succeeds even when the fields are `undefined`, but
`answer.total` on an `undefined` answer, and `Object.entries(plan)` on
an `undefined` plan, both throw. -/

/-- The total-count block of `displayResults`. -/
def totalCountHtml (t : Nat) : String :=
  "<div class=\"total-count\">📊 Jumlah Keseluruhan: " ++ formatNumber t ++ " orang</div>"

/-- One `data-item` of the plan card (`generatePlanCard`'s `.map`
body). -/
def dataItemHtml (kv : String × String) : String :=
  "<div class=\"data-item\"><span>" ++ formatKey kv.1 ++
    ":</span><span class=\"data-value\">" ++ escapeHtml kv.2 ++ "</span></div>"

/-- `ResultsModule.generatePlanCard`: filter out the entries whose
value is the string `Any`, map the rest to `data-item` blocks, join,
and wrap in the result card. -/
def generatePlanCard (plan : List (String × String)) : String :=
  let filteredPlan :=
    String.join (((plan.filter fun kv => kv.2 ≠ "Any").map dataItemHtml))
  "<div class=\"result-card\"><div class=\"result-title\">🎯 Parameter Carian</div>" ++
    filteredPlan ++ "</div>"

/-- One row of a group card. -/
def groupRowHtml (row : Row) : String :=
  "<div class=\"data-item\"><span>" ++ escapeHtml row.value ++
    "</span><span class=\"data-value\">" ++ formatNumber row.count ++ "</span></div>"

/-- One group of the breakdown card. -/
def groupHtml (g : Group) : String :=
  "<div class=\"group-data\"><div class=\"group-title\">" ++ escapeHtml g.label ++
    "</div>" ++ String.join (g.rows.map groupRowHtml) ++ "</div>"

/-- `ResultsModule.generateGroupsCard`. -/
def generateGroupsCard (groups : List Group) : String :=
  "<div class=\"result-card\"><div class=\"result-title\">📈 Pecahan Data</div>" ++
    String.join (groups.map groupHtml) ++ "</div>"

/-- `ResultsModule.displayResults`.  `attached` is whether
`this.container` was found; `data` is the response (`none` for a
missing/null argument); `prev` is the container's current content.
Returns the container's content afterwards, or the thrown error. -/
def displayResults (attached : Bool) (data : Option AskBody) (prev : String) :
    Except String String :=
  if attached = false then Except.ok prev
  else
    match data with
    | none => Except.ok prev
    | some d =>
      match d.answer with
      | none => Except.error "TypeError: cannot read total of undefined"
      | some ans =>
        let totalHtml :=
          match ans.total with
          | some t => totalCountHtml t
          | none => ""
        match d.plan with
        | none => Except.error "TypeError: cannot convert undefined to object"
        | some p =>
          let groupsHtml :=
            match ans.groups with
            | some gs => if 0 < gs.length then generateGroupsCard gs else ""
            | none => ""
          Except.ok (totalHtml ++ generatePlanCard p ++ groupsHtml)

/-! ## statusManager.js: updateStatus

The indicator is `none` when `document.getElementById` found nothing;
otherwise it carries the element's text and class attribute.  The
expression `statusConfig[status]` is a JavaScript property access on
the object literal, so it consults the object's own three keys first
and then the prototype chain: the members of `Object.prototype`
(`constructor`, `toString`, `valueOf`, ..., plus the Annex B
accessors).  An inherited member is a function or object - truthy - so
the `if (config)` branch is entered with `config.text` and
`config.class` both `undefined`: assigning `undefined` to the nullable
DOMString `textContent` coerces it to null and clears the text, and
the template literal stringifies `undefined` into the class string. -/

/-- The status indicator element's displayed text and class. -/
structure Indicator where
  text : String
  className : String
deriving DecidableEq, Repr

/-- The own keys of the `statusConfig` object literal: text and class
for each known status. -/
def statusConfig (status : String) : Option (String × String) :=
  if status = "online" then some ("🟢 Backend Online", "status-online")
  else if status = "offline" then some ("🔴 Backend Offline", "status-offline")
  else if status = "checking" then some ("🟡 Checking...", "status-checking")
  else none

/-- The property names an object literal inherits from
`Object.prototype` (ECMA-262, with the Annex B legacy accessors
present in browsers); reading any of them yields a function or object,
which is truthy. -/
def objectPrototypeKeys : List String :=
  ["constructor", "hasOwnProperty", "isPrototypeOf", "propertyIsEnumerable",
   "toLocaleString", "toString", "valueOf", "__proto__",
   "__defineGetter__", "__defineSetter__", "__lookupGetter__", "__lookupSetter__"]

/-- What the property access `statusConfig[status]` can yield. -/
inductive PropValue where
  | entry : String → String → PropValue
  | inheritedMember : PropValue
  | undef : PropValue
deriving DecidableEq, Repr

/-- The property access `statusConfig[status]`: an own entry, an
inherited `Object.prototype` member (truthy, but with `text` and
`class` fields `undefined`), or `undefined`. -/
def statusConfigGet (status : String) : PropValue :=
  match statusConfig status with
  | some tc => PropValue.entry tc.1 tc.2
  | none =>
    if status ∈ objectPrototypeKeys then PropValue.inheritedMember
    else PropValue.undef

/-- `StatusManager.updateStatus`: early return when no indicator
element is attached; otherwise assign text and class whenever the
property access yields a truthy value.  For an own entry that is its
text/class pairing; for an inherited member the assigned `undefined`
fields clear the text and stringify into the class. -/
def updateStatus (ind : Option Indicator) (status : String) : Option Indicator :=
  match ind with
  | none => none
  | some i =>
    match statusConfigGet status with
    | PropValue.undef => some i
    | PropValue.entry t c => some ⟨t, "status-indicator " ++ c⟩
    | PropValue.inheritedMember => some ⟨"", "status-indicator undefined"⟩

/-! ## chatModule.js: sendMessage

One call of the async `sendMessage` is an atomic transition on the
chat panel's state, parameterised by what the awaited
`ApiService.sendQuery` promise settles to (`result`).  The returned
Bool records whether a network request was issued.  Everything inside
the `try` - including `ResultsModule.displayResults`, whose `TypeError`
on malformed data is caught by the same `catch` - feeds the success or
error path, and the `finally` clears the flag on every path that set
it. -/

/-- JavaScript `String.prototype.trim`: strip whitespace from both
ends (embedded directly, as for the other platform string
primitives). -/
def jsTrim (s : String) : String :=
  String.mk (((s.data.dropWhile Char.isWhitespace).reverse.dropWhile
    Char.isWhitespace).reverse)

/-- A chat message's author. -/
inductive Sender where
  | user : Sender
  | bot : Sender
deriving DecidableEq, Repr

/-- The chat panel's state: the busy flag, the input field's value, the
ordered message list, the status indicator (shared with
`StatusManager`), whether the results container is attached, and its
content. -/
structure ChatState where
  isLoading : Bool
  inputValue : String
  messages : List (Sender × String)
  indicator : Option Indicator
  resultsAttached : Bool
  resultsHtml : String
deriving DecidableEq, Repr

/-- The fixed bot confirmation message. -/
def botConfirmMessage : String :=
  "Saya telah menganalisis data berdasarkan pertanyaan anda. Lihat keputusan di sebelah kanan."

/-- `ChatModule.sendMessage`: returns the state after the call
completes and whether `ApiService.sendQuery` was invoked. -/
def sendMessage (st : ChatState) (result : Except String AskBody) : ChatState × Bool :=
  if st.isLoading then (st, false)
  else
    let message := jsTrim st.inputValue
    if message = "" then (st, false)
    else
      let st1 : ChatState :=
        { st with
            messages := st.messages ++ [(Sender.user, message)]
            inputValue := ""
            isLoading := true }
      match result with
      | Except.ok data =>
        match displayResults st1.resultsAttached (some data) st1.resultsHtml with
        | Except.ok html =>
          ({ st1 with
              resultsHtml := html
              messages := st1.messages ++ [(Sender.bot, botConfirmMessage)]
              isLoading := false }, true)
        | Except.error msg =>
          ({ st1 with
              messages := st1.messages ++ [(Sender.bot, "Maaf, terdapat ralat: " ++ msg)]
              indicator := updateStatus st1.indicator "offline"
              isLoading := false }, true)
      | Except.error msg =>
        ({ st1 with
            messages := st1.messages ++ [(Sender.bot, "Maaf, terdapat ralat: " ++ msg)]
            indicator := updateStatus st1.indicator "offline"
            isLoading := false }, true)

/-! ## Spec-side description of the plan card (for the refinement
statement about `generatePlanCard`). -/

/-- Following the spec's words: walk the plan's entries in their own
order; skip an entry whose value is the sentinel `Any`; otherwise emit
the humanized key paired with the escaped value. -/
def planItemsSpec : List (String × String) → List (String × String)
  | [] => []
  | (k, v) :: rest =>
    if v = "Any" then planItemsSpec rest
    else (formatKey k, escapeHtml v) :: planItemsSpec rest

/-- How one spec-side item is shown as a `data-item` block. -/
def specItemHtml (kv : String × String) : String :=
  "<div class=\"data-item\"><span>" ++ kv.1 ++
    ":</span><span class=\"data-value\">" ++ kv.2 ++ "</span></div>"

/-! ## Auxiliary definitions for the statements -/

/-- Whether an `Except` is an error. -/
def isErr {ε α : Type} : Except ε α → Bool
  | Except.error _ => true
  | Except.ok _ => false

/-- One step of the HTML parser's reading of character data: at `c`
followed by `rest`, consume one entity (the four the text-node
serialisation emits) or one literal character, yielding the decoded
character and the remaining input. -/
def unescapeStep (c : Char) (rest : List Char) : Char × List Char :=
  if c = '&' then
    match rest with
    | 'a' :: 'm' :: 'p' :: ';' :: rest2 => ('&', rest2)
    | 'l' :: 't' :: ';' :: rest2 => ('<', rest2)
    | 'g' :: 't' :: ';' :: rest2 => ('>', rest2)
    | 'n' :: 'b' :: 's' :: 'p' :: ';' :: rest2 => (Char.ofNat 160, rest2)
    | rest2 => ('&', rest2)
  else (c, rest)

/-- The consumed suffix never grows. -/
theorem unescapeStep_length (c : Char) (rest : List Char) :
    (unescapeStep c rest).2.length ≤ rest.length := by
  unfold unescapeStep
  split
  · split <;> simp <;> omega
  · simp

/-- The HTML parser's reading of character data, used to state that
escaping round-trips. -/
def unescapeList : List Char → List Char
  | [] => []
  | c :: rest =>
    (unescapeStep c rest).1 :: unescapeList (unescapeStep c rest).2
termination_by l => l.length
decreasing_by
  simp only [List.length_cons]
  exact Nat.lt_succ_of_le (unescapeStep_length _ _)

/-- String form of `unescapeList`. -/
def unescapeHtml (s : String) : String :=
  String.mk (unescapeList s.data)

/-! Concrete inputs used by the witnesses. -/

/-- A chat state whose busy flag is set. -/
def busyState : ChatState :=
  ⟨true, "hello", [], none, true, ""⟩

/-- An idle chat state with a non-empty input. -/
def idleState : ChatState :=
  ⟨false, "hello", [], none, true, ""⟩

/-- An idle chat state whose input is whitespace only. -/
def blankInputState : ChatState :=
  ⟨false, "   ", [], none, true, ""⟩

/-- A well-formed success body. -/
def okBody : AskBody :=
  ⟨none, some [("gender", "Male")], some ⟨some 2, none⟩⟩

/-- A 2xx reply whose body carries an empty `error` field. -/
def emptyErrorReply : AskResponse :=
  ⟨200, ⟨some "", none, none⟩⟩

/-- A 404 reply. -/
def notFoundReply : AskResponse :=
  ⟨404, ⟨none, none, none⟩⟩

/-- A 2xx reply with a non-empty `error` field. -/
def appErrorReply : AskResponse :=
  ⟨200, ⟨some "boom", none, none⟩⟩

/-- A 2xx reply with no `error` field. -/
def cleanReply : AskResponse :=
  ⟨204, ⟨none, some [("gender", "Male")], some ⟨some 2, none⟩⟩⟩

/-- A body whose `answer` field is absent. -/
def noAnswerBody : AskBody :=
  ⟨none, some [("gender", "Male")], none⟩

/-- A body whose `plan` field is absent. -/
def noPlanBody : AskBody :=
  ⟨none, none, some ⟨some 2, none⟩⟩

/-- A concrete indicator state. -/
def checkingIndicator : Indicator :=
  ⟨"🟡 Checking...", "status-indicator status-checking"⟩

end Chatbot

namespace Chatbot

example : escapeHtml "<script>" = "&lt;script&gt;" := by decide
example : escapeHtml "\"" = "\"" := by decide
example : escapeHtml "&amp;" = "&amp;amp;" := by decide
example : formatKey "age_group" = "Age Group" := by decide
example : formatKey "state" = "State" := by decide
example : formatNumber 15000 = "15,000" := by decide
example : formatNumber 123 = "123" := by decide
example : formatNumber 1234567 = "1,234,567" := by decide

example (e : String) :
    @checkHealth Unit (fun _ => Except.error e) 0 RETRY_ATTEMPTS =
      ([HEvent.request, HEvent.delay 1000, HEvent.request, HEvent.delay 1000,
        HEvent.request, HEvent.delay 1000, HEvent.request], Except.error e) := rfl

example : sendQuery ⟨200, ⟨some "boom", none, none⟩⟩ = Except.error "boom" := rfl
example : sendQuery ⟨200, ⟨some "", none, none⟩⟩ = Except.ok ⟨some "", none, none⟩ := rfl
example : sendQuery ⟨404, ⟨none, none, none⟩⟩ = Except.error "HTTP error! status: 404" := rfl

/-! ## Lemmas about the escaping serialisation -/

theorem escapeChar_clean (c : Char) (h : isEscapedChar c = false) :
    escapeChar c = String.mk [c] := by
  simp only [isEscapedChar, Bool.or_eq_false_iff, decide_eq_false_iff_not] at h
  obtain ⟨⟨⟨h1, h2⟩, h3⟩, h4⟩ := h
  simp [escapeChar, h1, h2, h3, h4]

theorem escapeHtmlList_clean (l : List Char)
    (h : l.all (fun c => !isEscapedChar c) = true) : escapeHtmlList l = l := by
  induction l with
  | nil => rfl
  | cons c cs ih =>
    simp only [List.all_cons, Bool.and_eq_true, Bool.not_eq_true'] at h
    rw [escapeHtmlList, escapeChar_clean c h.1, ih h.2]
    rfl

theorem one_le_escapeChar_length (c : Char) : 1 ≤ (escapeChar c).data.length := by
  unfold escapeChar
  split_ifs <;> simp [String.mk]

theorem length_le_escapeHtmlList (l : List Char) :
    l.length ≤ (escapeHtmlList l).length := by
  induction l with
  | nil => simp [escapeHtmlList]
  | cons c cs ih =>
    rw [escapeHtmlList]
    simp only [List.length_append, List.length_cons]
    have := one_le_escapeChar_length c
    omega

theorem amp_mem_escapeChar (c : Char) (h : isEscapedChar c = true) :
    '&' ∈ (escapeChar c).data := by
  simp only [isEscapedChar, Bool.or_eq_true, decide_eq_true_eq] at h
  rcases h with ((h | h) | h) | h <;> subst h <;> decide

theorem mem_escapeHtmlList_of_mem (l : List Char) (c x : Char)
    (hc : c ∈ l) (hx : x ∈ (escapeChar c).data) : x ∈ escapeHtmlList l := by
  induction l with
  | nil => simp at hc
  | cons d ds ih =>
    rw [escapeHtmlList]
    rcases List.mem_cons.mp hc with h | h
    · subst h
      exact List.mem_append_left _ hx
    · exact List.mem_append_right _ (ih h)

theorem amp_mem_escapeHtmlList (l : List Char)
    (h : l.all (fun c => !isEscapedChar c) = false) : '&' ∈ escapeHtmlList l := by
  rw [List.all_eq_false] at h
  obtain ⟨c, hc, hcp⟩ := h
  have hce : isEscapedChar c = true := by simpa using hcp
  exact mem_escapeHtmlList_of_mem l c '&' hc (amp_mem_escapeChar c hce)

theorem length_lt_of_amp_mem (l : List Char) (h : '&' ∈ l) :
    l.length < (escapeHtmlList l).length := by
  induction l with
  | nil => simp at h
  | cons c cs ih =>
    rw [escapeHtmlList]
    simp only [List.length_append, List.length_cons]
    rcases List.mem_cons.mp h with hc | hc
    · have h1 := length_le_escapeHtmlList cs
      have h2 : (escapeChar '&').data.length = 5 := by decide
      rw [← hc, h2]
      omega
    · have h1 := one_le_escapeChar_length c
      have h2 := ih hc
      omega

theorem unescapeList_cons_of_ne (c : Char) (t : List Char) (h : ¬c = '&') :
    unescapeList (c :: t) = c :: unescapeList t := by
  simp only [unescapeList]
  rw [show unescapeStep c t = (c, t) from by simp [unescapeStep, h]]

theorem unescapeList_amp (t : List Char) :
    unescapeList ('&' :: 'a' :: 'm' :: 'p' :: ';' :: t) = '&' :: unescapeList t := by
  simp only [unescapeList]
  rfl

theorem unescapeList_lt (t : List Char) :
    unescapeList ('&' :: 'l' :: 't' :: ';' :: t) = '<' :: unescapeList t := by
  simp only [unescapeList]
  rfl

theorem unescapeList_gt (t : List Char) :
    unescapeList ('&' :: 'g' :: 't' :: ';' :: t) = '>' :: unescapeList t := by
  simp only [unescapeList]
  rfl

theorem unescapeList_nbsp (t : List Char) :
    unescapeList ('&' :: 'n' :: 'b' :: 's' :: 'p' :: ';' :: t) =
      Char.ofNat 160 :: unescapeList t := by
  simp only [unescapeList]
  rfl

theorem unescape_escapeHtmlList (l : List Char) :
    unescapeList (escapeHtmlList l) = l := by
  induction l with
  | nil => simp [escapeHtmlList, unescapeList]
  | cons c cs ih =>
    rw [escapeHtmlList]
    by_cases h1 : c = '&'
    · subst h1
      rw [show (escapeChar '&').data = ['&', 'a', 'm', 'p', ';'] from rfl]
      simpa using (unescapeList_amp (escapeHtmlList cs)).trans (by rw [ih])
    · by_cases h2 : c = '<'
      · subst h2
        rw [show (escapeChar '<').data = ['&', 'l', 't', ';'] from rfl]
        simpa using (unescapeList_lt (escapeHtmlList cs)).trans (by rw [ih])
      · by_cases h3 : c = '>'
        · subst h3
          rw [show (escapeChar '>').data = ['&', 'g', 't', ';'] from rfl]
          simpa using (unescapeList_gt (escapeHtmlList cs)).trans (by rw [ih])
        · by_cases h4 : c = Char.ofNat 160
          · subst h4
            rw [show (escapeChar (Char.ofNat 160)).data = ['&', 'n', 'b', 's', 'p', ';'] from rfl]
            simpa using (unescapeList_nbsp (escapeHtmlList cs)).trans (by rw [ih])
          · have hcl : isEscapedChar c = false := by
              simp [isEscapedChar, h1, h2, h3, h4]
            rw [escapeChar_clean c hcl]
            show unescapeList (c :: escapeHtmlList cs) = c :: cs
            rw [unescapeList_cons_of_ne c _ h1, ih]

theorem escapeChar_no_angle (c : Char) :
    ((escapeChar c).data.all fun d => d ≠ '<' && d ≠ '>') = true := by
  unfold escapeChar
  split_ifs with h1 h2 h3 h4
  · decide
  · decide
  · decide
  · decide
  · simp [String.mk, h2, h3]

theorem escapeHtmlList_no_angle (l : List Char) :
    ((escapeHtmlList l).all fun d => d ≠ '<' && d ≠ '>') = true := by
  induction l with
  | nil => rfl
  | cons c cs ih =>
    rw [escapeHtmlList, List.all_append, escapeChar_no_angle, ih]
    rfl

theorem unescape_escapeHtml (s : String) : unescapeHtml (escapeHtml s) = s := by
  cases s with
  | mk l =>
    show String.mk (unescapeList (escapeHtmlList l)) = String.mk l
    rw [unescape_escapeHtmlList]

/-! ## Lemmas about the key humanization -/

theorem jsWordUp_length (prev : Bool) (l : List Char) :
    (jsWordUp prev l).length = l.length := by
  induction l generalizing prev with
  | nil => rfl
  | cons c cs ih => simp [jsWordUp, ih]

theorem jsWordUp_getD (l : List Char) (prev : Bool) (i : Nat) (hi : i < l.length) :
    (jsWordUp prev l).getD i ' ' =
      (if isWordChar (l.getD i ' ') &&
          !(if i = 0 then prev else isWordChar (l.getD (i - 1) ' '))
       then (l.getD i ' ').toUpper
       else l.getD i ' ') := by
  induction l generalizing prev i with
  | nil => simp at hi
  | cons c cs ih =>
    cases i with
    | zero => simp [jsWordUp]
    | succ j =>
      have hj : j < cs.length := by simpa using hi
      have step := ih (isWordChar c) j hj
      cases j with
      | zero =>
        simpa [jsWordUp] using step
      | succ k =>
        simpa [jsWordUp] using step

/-! ## Lemma relating the plan card to its spec-side description -/

theorem planItemsSpec_map (plan : List (String × String)) :
    (planItemsSpec plan).map specItemHtml =
      ((plan.filter fun kv => kv.2 ≠ "Any").map dataItemHtml) := by
  induction plan with
  | nil => rfl
  | cons kv rest ih =>
    obtain ⟨k, v⟩ := kv
    by_cases h : v = "Any"
    · simp [planItemsSpec, h, ih]
    · simp only [planItemsSpec, h, if_false, List.map_cons, ih, List.filter_cons]
      simp [h, dataItemHtml, specItemHtml]

/-! ## Claims -/

/-- C1 counterexample: the escaping round-trip leaves the double-quote
character - one of the five HTML-significant characters the claim says
are always replaced - literally in the output. -/
theorem escapeHtml_quote_passthrough :
    escapeHtml "\"" = "\"" ∧ ('"' : Char) ∈ (escapeHtml "\"").data := by
  exact ⟨rfl, by decide⟩

/-- C1 (amended): for every input string, escapeHtml replaces every
occurrence of the three characters the text-node round-trip escapes
(ampersand, less-than, greater-than) by entities: the output contains
no literal angle bracket at all, and parsing the output back as
character data recovers the input exactly; in particular
escapeHtml of the script tag contains no literal angle brackets.  The
quote characters, however, pass through unchanged. -/
theorem escapeHtml_structural :
    (∀ s : String, ((escapeHtml s).data.all fun c => c ≠ '<' && c ≠ '>') = true) ∧
    (∀ s : String, unescapeHtml (escapeHtml s) = s) ∧
    escapeHtml "<script>" = "&lt;script&gt;" := by
  refine ⟨fun s => ?_, unescape_escapeHtml, by decide⟩
  exact escapeHtmlList_no_angle s.data

/-- C5 counterexample: escapeHtml applied to the already-escaped
string produced by a prior call re-escapes the entity's ampersand, so
it is not idempotent. -/
theorem escapeHtml_double_escape :
    escapeHtml "&amp;" = "&amp;amp;" ∧
    escapeHtml (escapeHtml "&") ≠ escapeHtml "&" := by
  exact ⟨rfl, by decide⟩

/-- C5 (amended): escapeHtml returns a string unchanged exactly on
strings containing none of the characters it escapes; whenever the
original input contained an escapable character, the prior call's
output contains an entity ampersand and a second application changes
the string again (double-processing). -/
theorem escapeHtml_fixed_iff_clean :
    ∀ s : String,
      (s.data.all (fun c => !isEscapedChar c) = true → escapeHtml s = s) ∧
      (s.data.all (fun c => !isEscapedChar c) = false →
        escapeHtml (escapeHtml s) ≠ escapeHtml s) := by
  intro s
  constructor
  · intro h
    cases s with
    | mk l =>
      show String.mk (escapeHtmlList l) = String.mk l
      rw [escapeHtmlList_clean l h]
  · intro h hEq
    have hamp : '&' ∈ (escapeHtml s).data := amp_mem_escapeHtmlList s.data h
    have hlt := length_lt_of_amp_mem (escapeHtml s).data hamp
    have h2 : (escapeHtml (escapeHtml s)).data.length = (escapeHtml s).data.length := by
      rw [hEq]
    have h3 : (escapeHtml (escapeHtml s)).data = escapeHtmlList (escapeHtml s).data := rfl
    rw [h3] at h2
    omega

/-- C5 witness: the amended theorem applied at a clean string and at
the ampersand string. -/
theorem escapeHtml_fixed_iff_clean_witness :
    (("abc" : String).data.all (fun c => !isEscapedChar c) = true ∧
      escapeHtml "abc" = "abc") ∧
    (("&" : String).data.all (fun c => !isEscapedChar c) = false ∧
      escapeHtml (escapeHtml "&") ≠ escapeHtml "&") :=
  ⟨⟨by decide, (escapeHtml_fixed_iff_clean "abc").1 (by decide)⟩,
   ⟨by decide, (escapeHtml_fixed_iff_clean "&").2 (by decide)⟩⟩

/-- C2: against a health endpoint failing on every request (the
`n`-th attempt rejecting with message `e n`), checkHealth with the
default budget performs exactly RETRY_ATTEMPTS + 1 = 4 fetch attempts,
waits RETRY_DELAY between consecutive attempts, and propagates the last
failure to the caller.  Termination holds by construction: the
recursion is structural on the retry counter, which strictly
decreases. -/
theorem checkHealth_always_fail_retries (α : Type) (e : Nat → String) :
    countRequests (@checkHealth α (fun n => Except.error (e n)) 0 RETRY_ATTEMPTS).1 =
        RETRY_ATTEMPTS + 1 ∧
    RETRY_ATTEMPTS + 1 = 4 ∧
    (@checkHealth α (fun n => Except.error (e n)) 0 RETRY_ATTEMPTS).2 =
        Except.error (e RETRY_ATTEMPTS) ∧
    spaced RETRY_DELAY (@checkHealth α (fun n => Except.error (e n)) 0 RETRY_ATTEMPTS).1 =
        true :=
  ⟨rfl, rfl, rfl, rfl⟩

/-- C8: formatKey maps each underscore to a space and uppercases
exactly the word-initial characters.  Concretely on the spec's
examples, and in general: the output has the same length as the input,
and its `i`-th character is the underscore-to-space image of the
input's `i`-th character, uppercased exactly when it is a word
character not preceded by a word character, and unchanged otherwise. -/
theorem formatKey_capitalizes_word_starts :
    formatKey "age_group" = "Age Group" ∧
    formatKey "state" = "State" ∧
    (∀ s : String, (formatKey s).data.length = s.data.length) ∧
    (∀ (s : String) (i : Nat), i < s.data.length →
      (formatKey s).data.getD i ' ' =
        (if isWordChar ((s.data.map underscoreToSpace).getD i ' ') &&
            !(if i = 0 then false
              else isWordChar ((s.data.map underscoreToSpace).getD (i - 1) ' '))
         then ((s.data.map underscoreToSpace).getD i ' ').toUpper
         else (s.data.map underscoreToSpace).getD i ' ')) := by
  refine ⟨by decide, by decide, fun s => ?_, fun s i hi => ?_⟩
  · show (jsWordUp false (s.data.map underscoreToSpace)).length = s.data.length
    rw [jsWordUp_length, List.length_map]
  · have hi2 : i < (s.data.map underscoreToSpace).length := by
      rw [List.length_map]
      exact hi
    exact jsWordUp_getD (s.data.map underscoreToSpace) false i hi2

/-- C8 witness: the characterization applied to the string age_group
at index 4 (the word-initial g). -/
theorem formatKey_capitalizes_word_starts_witness :
    4 < ("age_group" : String).data.length ∧
    (formatKey "age_group").data.getD 4 ' ' =
      (if isWordChar ((("age_group" : String).data.map underscoreToSpace).getD 4 ' ') &&
          !(if 4 = 0 then false
            else isWordChar ((("age_group" : String).data.map underscoreToSpace).getD (4 - 1) ' '))
       then ((("age_group" : String).data.map underscoreToSpace).getD 4 ' ').toUpper
       else (("age_group" : String).data.map underscoreToSpace).getD 4 ' ') :=
  ⟨by decide, formatKey_capitalizes_word_starts.2.2.2 "age_group" 4 (by decide)⟩

/-- C3: while the busy flag is set, a sendMessage call is a no-op
(the state is unchanged and no network request is issued); and every
completed execution started while idle - whatever the query settles
to, including a rendering failure caught by the same handler - leaves
the busy flag false again. -/
theorem sendMessage_busy_invariant :
    (∀ (st : ChatState) (result : Except String AskBody),
        st.isLoading = true → sendMessage st result = (st, false)) ∧
    (∀ (st : ChatState) (result : Except String AskBody),
        st.isLoading = false → (sendMessage st result).1.isLoading = false) := by
  constructor
  · intro st result h
    simp [sendMessage, h]
  · intro st result h
    by_cases he : jsTrim st.inputValue = ""
    · simp [sendMessage, h, he]
    · cases result with
      | error msg => simp [sendMessage, h, he]
      | ok data =>
        simp only [sendMessage, h, he, Bool.false_eq_true, if_false]
        split <;> simp

/-- C3 witness: the invariant applied at a busy state and at an idle
state with a successful query. -/
theorem sendMessage_busy_invariant_witness :
    (busyState.isLoading = true ∧
      sendMessage busyState (Except.ok okBody) = (busyState, false)) ∧
    (idleState.isLoading = false ∧
      (sendMessage idleState (Except.ok okBody)).1.isLoading = false) :=
  ⟨⟨rfl, sendMessage_busy_invariant.1 busyState (Except.ok okBody) rfl⟩,
   ⟨rfl, sendMessage_busy_invariant.2 idleState (Except.ok okBody) rfl⟩⟩

/-- C7: whenever the trimmed input is empty, sendMessage leaves the
whole chat state untouched and issues no network call, whatever the
busy flag is. -/
theorem sendMessage_empty_input_noop :
    ∀ (st : ChatState) (result : Except String AskBody),
      jsTrim st.inputValue = "" → sendMessage st result = (st, false) := by
  intro st result he
  by_cases h : st.isLoading
  · simp [sendMessage, h]
  · simp [sendMessage, h, he]

/-- C7 witness: the no-op applied at an idle state whose input is
whitespace only. -/
theorem sendMessage_empty_input_noop_witness :
    jsTrim blankInputState.inputValue = "" ∧
    sendMessage blankInputState (Except.ok okBody) = (blankInputState, false) :=
  ⟨by decide,
   sendMessage_empty_input_noop blankInputState (Except.ok okBody) (by decide)⟩

/-- C4 counterexample: a 2xx reply whose parsed body carries the
application-level error field with the empty string is returned
unchanged - the field is present, yet no error is raised, because the
code tests JavaScript truthiness rather than presence. -/
theorem sendQuery_empty_error_field :
    sendQuery emptyErrorReply = Except.ok emptyErrorReply.body ∧
    emptyErrorReply.body.error = some "" ∧
    responseOk emptyErrorReply = true :=
  ⟨rfl, rfl, rfl⟩

/-- C4 (amended): sendQuery raises exactly when the status is not a
success or the parsed body's error field is truthy (present and
non-empty), in which case the raised message is that field's value;
any other reply - including one whose error field is present but
empty - is returned unchanged. -/
theorem sendQuery_error_classification :
    ∀ r : AskResponse,
      (responseOk r = false →
        sendQuery r = Except.error ("HTTP error! status: " ++ toString r.status)) ∧
      (responseOk r = true → ∀ e : String, r.body.error = some e → e ≠ "" →
        sendQuery r = Except.error e) ∧
      (responseOk r = true → truthy r.body.error = false →
        sendQuery r = Except.ok r.body) := by
  intro r
  refine ⟨fun h => ?_, fun h e he hne => ?_, fun h ht => ?_⟩
  · simp [sendQuery, h]
  · simp [sendQuery, h, truthy, he, hne]
  · simp [sendQuery, h, ht]

/-- C4 witness: the classification applied to a 404 reply, a reply
with a non-empty error field, and a clean 204 reply. -/
theorem sendQuery_error_classification_witness :
    (responseOk notFoundReply = false ∧
      sendQuery notFoundReply =
        Except.error ("HTTP error! status: " ++ toString notFoundReply.status)) ∧
    (responseOk appErrorReply = true ∧ appErrorReply.body.error = some "boom" ∧
      sendQuery appErrorReply = Except.error "boom") ∧
    (responseOk cleanReply = true ∧ truthy cleanReply.body.error = false ∧
      sendQuery cleanReply = Except.ok cleanReply.body) :=
  ⟨⟨rfl, (sendQuery_error_classification notFoundReply).1 rfl⟩,
   ⟨rfl, rfl,
    (sendQuery_error_classification appErrorReply).2.1 rfl "boom" rfl (by decide)⟩,
   ⟨rfl, rfl, (sendQuery_error_classification cleanReply).2.2 rfl rfl⟩⟩

/-- C6: the rendered plan card is the card wrapper around exactly the
spec-side item sequence - one humanized-key/escaped-value entry per
plan entry whose value is not the sentinel, in the plan's own order -
and on the plan with gender Male and state Any it renders exactly the
single Gender entry. -/
theorem generatePlanCard_matches_spec :
    (∀ plan : List (String × String),
      generatePlanCard plan =
        "<div class=\"result-card\"><div class=\"result-title\">🎯 Parameter Carian</div>" ++
          String.join ((planItemsSpec plan).map specItemHtml) ++ "</div>") ∧
    planItemsSpec [("gender", "Male"), ("state", "Any")] = [("Gender", "Male")] ∧
    generatePlanCard [("gender", "Male"), ("state", "Any")] =
      "<div class=\"result-card\"><div class=\"result-title\">🎯 Parameter Carian</div><div class=\"data-item\"><span>Gender:</span><span class=\"data-value\">Male</span></div></div>" := by
  refine ⟨fun plan => ?_, by decide, by decide⟩
  simp only [generatePlanCard, planItemsSpec_map]

/-- C9: displayResults is a no-op exactly for a missing container or a
missing response; a present response whose answer is absent, or whose
answer is present but whose plan is absent, makes it throw instead of
no-op, and with both present it completes normally - so plan and
answer present is an unstated precondition. -/
theorem displayResults_requires_plan_answer :
    (∀ (data : Option AskBody) (prev : String),
        displayResults false data prev = Except.ok prev) ∧
    (∀ prev : String, displayResults true none prev = Except.ok prev) ∧
    (∀ (d : AskBody) (prev : String), d.answer = none →
        isErr (displayResults true (some d) prev) = true) ∧
    (∀ (d : AskBody) (prev : String) (ans : Answer),
        d.answer = some ans → d.plan = none →
        isErr (displayResults true (some d) prev) = true) ∧
    (∀ (d : AskBody) (prev : String) (ans : Answer) (p : List (String × String)),
        d.answer = some ans → d.plan = some p →
        isErr (displayResults true (some d) prev) = false) := by
  refine ⟨fun data prev => rfl, fun prev => rfl, fun d prev h => ?_,
    fun d prev ans h hp => ?_, fun d prev ans p h hp => ?_⟩
  · simp [displayResults, h, isErr]
  · simp [displayResults, h, hp, isErr]
  · simp [displayResults, h, hp, isErr]

/-- C9 witness: the three interesting cases at concrete bodies. -/
theorem displayResults_requires_plan_answer_witness :
    (noAnswerBody.answer = none ∧
      isErr (displayResults true (some noAnswerBody) "") = true) ∧
    (noPlanBody.answer = some ⟨some 2, none⟩ ∧ noPlanBody.plan = none ∧
      isErr (displayResults true (some noPlanBody) "") = true) ∧
    (okBody.answer = some ⟨some 2, none⟩ ∧ okBody.plan = some [("gender", "Male")] ∧
      isErr (displayResults true (some okBody) "") = false) :=
  ⟨⟨rfl, displayResults_requires_plan_answer.2.2.1 noAnswerBody "" rfl⟩,
   ⟨rfl, rfl,
    displayResults_requires_plan_answer.2.2.2.1 noPlanBody "" ⟨some 2, none⟩ rfl rfl⟩,
   ⟨rfl, rfl,
    displayResults_requires_plan_answer.2.2.2.2 okBody "" ⟨some 2, none⟩
      [("gender", "Male")] rfl rfl⟩⟩

/-- C10 counterexample: at the status toString - outside the fixed set
of three - the property access finds the inherited Object.prototype
member, which is truthy, so the code overwrites the attached
indicator (the assigned undefined clears the text, and the class
becomes the stringified undefined) instead of leaving it exactly as it
was. -/
theorem updateStatus_toString_mutates :
    updateStatus (some checkingIndicator) "toString" =
      some ⟨"", "status-indicator undefined"⟩ ∧
    updateStatus (some checkingIndicator) "toString" ≠ some checkingIndicator ∧
    "toString" ≠ "online" ∧ "toString" ≠ "offline" ∧ "toString" ≠ "checking" := by
  exact ⟨rfl, by decide, by decide, by decide, by decide⟩

/-- C10 (amended): updateStatus leaves an attached indicator exactly
as it was for every status outside the three-entry table AND outside
the property names inherited from Object.prototype; with no indicator
element attached it changes nothing for any status; but for an
inherited member name (toString, constructor, valueOf, ...) it
overwrites the indicator with empty text and the stringified-undefined
class, so the indicator after any call is unchanged, one of the three
table entries, or that undefined pairing. -/
theorem updateStatus_unknown_status_frame :
    (∀ status : String,
        status ≠ "online" → status ≠ "offline" → status ≠ "checking" →
        status ∉ objectPrototypeKeys →
        ∀ ind : Option Indicator, updateStatus ind status = ind) ∧
    (∀ status : String, updateStatus none status = none) ∧
    (∀ status : String, status ∈ objectPrototypeKeys →
        ∀ i : Indicator,
          updateStatus (some i) status = some ⟨"", "status-indicator undefined"⟩) ∧
    (∀ (ind : Option Indicator) (status : String),
        updateStatus ind status = ind ∨
        updateStatus ind status =
          some ⟨"🟢 Backend Online", "status-indicator status-online"⟩ ∨
        updateStatus ind status =
          some ⟨"🔴 Backend Offline", "status-indicator status-offline"⟩ ∨
        updateStatus ind status =
          some ⟨"🟡 Checking...", "status-indicator status-checking"⟩ ∨
        updateStatus ind status = some ⟨"", "status-indicator undefined"⟩) := by
  refine ⟨fun status h1 h2 h3 h4 ind => ?_, fun status => rfl,
    fun status h i => ?_, fun ind status => ?_⟩
  · cases ind with
    | none => rfl
    | some i =>
      simp [updateStatus, statusConfigGet, statusConfig, h1, h2, h3, h4]
  · simp only [objectPrototypeKeys, List.mem_cons, List.not_mem_nil, or_false] at h
    rcases h with h | h | h | h | h | h | h | h | h | h | h | h <;> subst h <;> rfl
  · cases ind with
    | none => exact Or.inl rfl
    | some i =>
      by_cases h1 : status = "online"
      · subst h1
        exact Or.inr (Or.inl rfl)
      · by_cases h2 : status = "offline"
        · subst h2
          exact Or.inr (Or.inr (Or.inl rfl))
        · by_cases h3 : status = "checking"
          · subst h3
            exact Or.inr (Or.inr (Or.inr (Or.inl rfl)))
          · by_cases h4 : status ∈ objectPrototypeKeys
            · refine Or.inr (Or.inr (Or.inr (Or.inr ?_)))
              simp [updateStatus, statusConfigGet, statusConfig, h1, h2, h3, h4]
            · refine Or.inl ?_
              simp [updateStatus, statusConfigGet, statusConfig, h1, h2, h3, h4]

/-- C10 witness: the frame theorem applied at the status bogus
(outside the table and outside the inherited names) with a concrete
attached indicator, and the mutation clause applied at valueOf. -/
theorem updateStatus_unknown_status_frame_witness :
    (("bogus" ≠ "online" ∧ "bogus" ≠ "offline" ∧ "bogus" ≠ "checking" ∧
        "bogus" ∉ objectPrototypeKeys) ∧
      updateStatus (some checkingIndicator) "bogus" = some checkingIndicator) ∧
    ("valueOf" ∈ objectPrototypeKeys ∧
      updateStatus (some checkingIndicator) "valueOf" =
        some ⟨"", "status-indicator undefined"⟩) :=
  ⟨⟨⟨by decide, by decide, by decide, by decide⟩,
    updateStatus_unknown_status_frame.1 "bogus" (by decide) (by decide) (by decide)
      (by decide) (some checkingIndicator)⟩,
   ⟨by decide,
    updateStatus_unknown_status_frame.2.2.1 "valueOf" (by decide) checkingIndicator⟩⟩

end Chatbot
